import Mathlib

set_option maxRecDepth 100000
set_option maxHeartbeats 2000000

/-!
Verification development for the functiongemma-counter intent pipeline.

The TypeScript source (src/functiongemma.ts and its embedded test copy)
is shallowly embedded below.  JavaScript regular-expression rules are
modelled by a small pattern language (`RElem`) covering exactly the
constructs the source uses: literal characters (case sensitive and
insensitive), a single optional character (`x?`), a single digit-run
capture group (`(\d+)`), word boundaries (`\b`), whitespace runs
(`\s+`) and the end-of-string anchor (`$`).  JavaScript `\w`, `\d` and
word boundaries are ASCII-only (no `u` flag in the source), which the
embedding mirrors.  `String.prototype.toLowerCase` is modelled on the
ASCII range (every raw function name reaching it is produced by a
`\w+` match, hence ASCII).  Record/object reads are modelled as
own-property association-list lookups, refined where it matters by
`normalizeFunctionJS`, which also models the prototype chain a plain
object literal inherits from `Object.prototype` (argument-map writes
keep the own-property model; only a `__proto__`-keyed args body would
diverge there, and no statement below turns on that case).  JavaScript
truthiness of strings (`if (argsString)`, `v || d`) is modelled as an
emptiness test; inherited prototype members are functions or objects
and hence truthy.
None of the source's rule patterns admits a zero-width match, and no
optional character is followed by a pattern element that could consume
the same character, so the greedy, non-backtracking matcher below
computes exactly the JavaScript match for every pattern in the tables.
-/

/-- JavaScript ASCII word character, the `\w` class without the `u` flag. -/
def isWordChar (c : Char) : Bool :=
  (('a' ≤ c && c ≤ 'z') || ('A' ≤ c && c ≤ 'Z') || ('0' ≤ c && c ≤ '9') || c = '_')

/-- ASCII lower-casing of one character (model of `toLowerCase` on the
characters this pipeline can produce). -/
def lowerChar (c : Char) : Char :=
  if 'A' ≤ c && c ≤ 'Z' then Char.ofNat (c.toNat + 32) else c

/-- Model of `String.prototype.toLowerCase` (ASCII range). -/
def jsToLower (s : String) : String := String.mk (s.data.map lowerChar)

/-- The JavaScript `\s` class (WhiteSpace and LineTerminator productions). -/
def isSpaceJS (c : Char) : Bool :=
  (c = ' ' || c = '\t' || c = '\n' || c = '\r' ||
   c.toNat = 11 || c.toNat = 12 || c.toNat = 0xa0 || c.toNat = 0x1680 ||
   (0x2000 ≤ c.toNat && c.toNat ≤ 0x200a) ||
   c.toNat = 0x2028 || c.toNat = 0x2029 || c.toNat = 0x202f ||
   c.toNat = 0x205f || c.toNat = 0x3000 || c.toNat = 0xfeff)

/-- The characters matched by `.` in a JavaScript regex without the `s`
flag: everything except the four line terminators. -/
def dotOk (c : Char) : Bool :=
  (!(c = '\n' || c = '\r' || c.toNat = 0x2028 || c.toNat = 0x2029))

/-- One element of a source regular expression. -/
inductive RElem where
  | lit : Char → RElem
  | liti : Char → RElem
  | opt : Char → RElem
  | digits : RElem
  | sps : RElem
  | wb : RElem
  | eos : RElem
deriving Repr, DecidableEq

/-- Word-boundary test between the previous character (none at string
start) and the upcoming text (empty at string end). -/
def boundaryOk (prev : Option Char) (s : List Char) : Bool :=
  let pw := match prev with | some c => isWordChar c | none => false
  let nw := match s with | c :: _ => isWordChar c | [] => false
  pw != nw

/-- Matcher for a pattern at the current position.  `prev` is the
character just before the position (for `\b`).  On success it returns
the remaining text, the text captured by the (unique) digit group, and
the last character consumed (the new `prev` for continued scanning). -/
def matchElems : List RElem → Option Char → List Char →
    Option (List Char × List Char × Option Char)
  | [], prev, s => some (s, [], prev)
  | RElem.lit c :: es, _, d :: s =>
      if d = c then matchElems es (some d) s else none
  | RElem.lit _ :: _, _, [] => none
  | RElem.liti c :: es, _, d :: s =>
      if lowerChar d = lowerChar c then matchElems es (some d) s else none
  | RElem.liti _ :: _, _, [] => none
  | RElem.opt c :: es, prev, d :: s =>
      if d = c then matchElems es (some d) s else matchElems es prev (d :: s)
  | RElem.opt _ :: es, prev, [] => matchElems es prev []
  | RElem.digits :: es, _, s =>
      let run := s.takeWhile Char.isDigit
      if run.isEmpty then none
      else
        match matchElems es run.getLast? (s.drop run.length) with
        | some (rest, _, lastc) => some (rest, run, lastc)
        | none => none
  | RElem.sps :: es, _, s =>
      let run := s.takeWhile isSpaceJS
      if run.isEmpty then none
      else
        match matchElems es run.getLast? (s.drop run.length) with
        | some (rest, cap, lastc) => some (rest, cap, lastc)
        | none => none
  | RElem.wb :: es, prev, s =>
      if boundaryOk prev s then matchElems es prev s else none
  | RElem.eos :: es, prev, s =>
      match s with
      | [] => matchElems es prev []
      | _ => none

/-- Case-sensitive literal pattern. -/
def rlit (s : String) : List RElem := s.data.map RElem.lit

/-- Case-insensitive literal pattern (the `i` flag). -/
def rliti (s : String) : List RElem := s.data.map RElem.liti

/-- A rewrite rule of the source tables: pattern, the replacement text,
and whether the captured digit group is appended to it (`$1`). -/
structure Rule where
  pat : List RElem
  rep : String
  grp : Bool
deriving Repr

/-- Plain replacement rule. -/
def mkR (p : List RElem) (r : String) : Rule := ⟨p, r, false⟩

/-- Replacement rule whose replacement ends with the captured group. -/
def mkG (p : List RElem) (r : String) : Rule := ⟨p, r, true⟩

/-- `\bword\b` with the `gi` flags, plain replacement. -/
def rword (w : String) (r : String) : Rule :=
  ⟨RElem.wb :: rliti w ++ [RElem.wb], r, false⟩

/-- Global replacement of one rule, scanning left to right and
continuing after each (necessarily non-empty) match, exactly as
`String.prototype.replace` with a `g` regex.  The fuel is bounded by
the text length; every step consumes at least one character. -/
def applyRuleAux : Nat → Rule → Option Char → List Char → List Char
  | 0, _, _, s => s
  | Nat.succ n, r, prev, s =>
      match s with
      | [] => []
      | c :: rest0 =>
          match matchElems r.pat prev s with
          | some (rest, cap, lastc) =>
              if rest.length < s.length then
                r.rep.data ++ (if r.grp then cap else []) ++
                  applyRuleAux n r lastc rest
              else
                c :: applyRuleAux n r (some c) rest0
          | none => c :: applyRuleAux n r (some c) rest0

/-- Apply one rule globally to a character list. -/
def applyRule (r : Rule) (s : List Char) : List Char :=
  applyRuleAux (s.length + 1) r none s

/-- Apply a rule table in order (the fold in `preprocessInput`). -/
def runRules (rules : List Rule) (s : List Char) : List Char :=
  rules.foldl (fun acc r => applyRule r acc) s

/-- `replace(/\s+/g, " ")`. -/
def collapseAux : List Char → Bool → List Char
  | [], _ => []
  | c :: s, prevSpace =>
      if isSpaceJS c then
        if prevSpace then collapseAux s true else ' ' :: collapseAux s true
      else c :: collapseAux s false

/-- `String.prototype.trim`. -/
def trimJS (s : List Char) : List Char :=
  ((s.dropWhile isSpaceJS).reverse.dropWhile isSpaceJS).reverse

/-- Whitespace cleanup shared by both normalizers:
`result.replace(/\s+/g, " ").trim()`. -/
def cleanSpaces (s : List Char) : List Char := trimJS (collapseAux s false)

/-- The ordered rule table `KOREAN_TO_ENGLISH` of src/functiongemma.ts
(lines 138-255), transcribed rule for rule in source order. -/
def KOREAN_TO_ENGLISH : List Rule := [
  -- Special number patterns (must be first)
  mkR (rlit "+1") "increment",
  mkR (rlit "-1") "decrement",
  rword "up by one" "increment",
  rword "down by one" "decrement",
  rword "plus 1" "increment",
  rword "minus 1" "decrement",
  -- Set patterns with numbers
  mkG (rliti "make it " ++ [RElem.digits]) "set to ",
  mkG (rliti "make the counter " ++ [RElem.digits]) "set counter to ",
  -- Compound phrases (before individual words)
  mkR (rliti "go down") "decrement",
  mkR (rliti "go up") "increment",
  mkR (rliti "count up") "increment",
  mkR (rliti "count down") "decrement",
  mkR (rliti "go lower") "decrement",
  mkR (rliti "go higher") "increment",
  mkR (rlit "하나 더") "add one",
  mkR (rlit "하나 빼") "subtract one",
  mkR (rliti "one more") "increment",
  mkR (rliti "one less") "decrement",
  mkR (rliti "tick up") "increment",
  mkR (rliti "tick down") "decrement",
  mkR (rliti "bump it up") "increment",
  mkR (rliti "bump up") "increment",
  mkR (rliti "raise it") "increment",
  mkR (rliti "lower it") "decrement",
  mkR (rliti "lower the counter") "decrement",
  mkR (rliti "raise the counter") "increment",
  mkR (rliti "reduce it") "decrement",
  mkR (rliti "back to zero") "reset",
  mkR (rliti "go to zero") "reset",
  mkR (rliti "start over") "reset",
  mkR (rliti "set to zero") "reset",
  mkR (rliti "make it zero") "reset",
  mkR (rliti "zero out") "reset",
  mkR (rliti "take one away") "decrement",
  mkR (rliti "add one more") "increment",
  mkR (rliti "count one more") "increment",
  mkR (rliti "count one less") "decrement",
  mkR (rliti "make it higher") "increment",
  mkR (rliti "make it lower") "decrement",
  mkR (rliti "add to counter") "increment",
  mkR (rliti "subtract from counter") "decrement",
  mkR (rliti "counter up") "increment",
  mkR (rliti "counter down") "decrement",
  -- Increment keywords (Korean)
  mkR (rlit "증가") "increment",
  mkR (rlit "올려") "increment",
  mkR (rlit "더해") "increment",
  mkR (rlit "플러스") "increment",
  mkR (rlit "추가") "increment",
  mkR (rlit "높여") "increment",
  mkR (rlit "키워") "increment",
  mkR (rlit "늘려") "increment",
  mkR (rlit "인크리먼트") "increment",
  mkR (rlit "업") "increment",
  -- Decrement keywords (Korean)
  mkR (rlit "감소") "decrement",
  mkR (rlit "내려") "decrement",
  mkR (rlit "빼") "decrement",
  mkR (rlit "마이너스") "decrement",
  mkR (rlit "줄여") "decrement",
  mkR (rlit "낮춰") "decrement",
  mkR (rlit "작게") "decrement",
  mkR (rlit "디크리먼트") "decrement",
  mkR (rlit "다운") "decrement",
  -- Set keywords (Korean)
  mkR (rlit "설정") "set",
  mkR (rlit "세팅") "set",
  mkR (rlit "변경") "change",
  mkR (rlit "바꿔") "change",
  mkG (RElem.digits :: rlit "으로") "to ",
  mkG (RElem.digits :: rlit "로") "to ",
  -- Reset keywords (Korean)
  mkR (rlit "초기화") "reset",
  mkR (rlit "리셋") "reset",
  mkR (rlit "클리어") "clear",
  mkR (rlit "제로") "zero",
  mkR (rlit "처음으로") "reset",
  mkR (rlit "원래대로") "reset",
  mkR (rlit "기본값") "reset",
  mkR (rlit "0으로") "to 0",
  -- English keywords that need normalization
  rword "increase" "increment",
  rword "add" "increment",
  rword "plus" "increment",
  rword "decrease" "decrement",
  rword "subtract" "decrement",
  rword "minus" "decrement",
  rword "raise" "increment",
  rword "reduce" "decrement",
  rword "clear" "reset",
  rword "default" "reset",
  rword "down" "decrement",
  rword "up" "increment",
  -- Common suffixes (Korean)
  mkR (rlit "해줘" ++ [RElem.eos]) "",
  mkR (rlit "시켜줘" ++ [RElem.eos]) "",
  mkR (rlit "시켜" ++ [RElem.eos]) "",
  mkR (rlit "해" ++ [RElem.eos]) "",
  mkR (rlit "줘" ++ [RElem.eos]) "",
  -- Context words
  mkR (rlit "카운터" ++ [RElem.opt '를']) "counter",
  mkR (rlit "숫자" ++ [RElem.opt '를']) "number",
  mkR (rlit "값" ++ [RElem.opt '을']) "value",
  mkR (rlit "하나") "one"
]

/-- `preprocessInput` of src/functiongemma.ts (lines 257-265). -/
def preprocessInput (input : String) : String :=
  String.mk (cleanSpaces (runRules KOREAN_TO_ENGLISH input.data))

-- ==========================================================
-- Output parser, name mapper and disambiguator (copy 1,
-- src/functiongemma.ts lines 270-429)
-- ==========================================================

/-- The opening brace character (kept out of string literals). -/
def openBrace : Char := Char.ofNat 123

/-- The closing brace character. -/
def closeBrace : Char := Char.ofNat 125

/-- Own-property lookup in a string-keyed record literal. -/
def lookupKey (k : String) : List (String × String) → Option String
  | [] => none
  | (k1, v) :: t => if k1 = k then some v else lookupKey k t

/-- JavaScript property assignment `args[k] = v` (overwrite in place,
append if absent). -/
def setKey (k v : String) : List (String × String) → List (String × String)
  | [] => [(k, v)]
  | (k1, v1) :: t => if k1 = k then (k, v) :: t else (k1, v1) :: setKey k v t

/-- JavaScript `delete args[k]`. -/
def eraseKey (k : String) (l : List (String × String)) : List (String × String) :=
  l.filter (fun p => p.1 != k)

/-- `FUNCTION_NAME_MAP` of src/functiongemma.ts (lines 270-310). -/
def FUNCTION_NAME_MAP : List (String × String) := [
  ("increment", "increment"),
  ("INCREMENT", "increment"),
  ("Increment", "increment"),
  ("add", "increment"),
  ("ADD", "increment"),
  ("plus", "increment"),
  ("PLUS", "increment"),
  ("increase", "increment"),
  ("INCREASE", "increment"),
  ("decrement", "decrement"),
  ("DECREMENT", "decrement"),
  ("Decrement", "decrement"),
  ("decrease", "decrement"),
  ("DECREASE", "decrement"),
  ("Decrease", "decrement"),
  ("subtract", "decrement"),
  ("SUBTRACT", "decrement"),
  ("minus", "decrement"),
  ("MINUS", "decrement"),
  ("set_counter", "set_counter"),
  ("SET_COUNTER", "set_counter"),
  ("set", "set_counter"),
  ("SET", "set_counter"),
  ("print_counter", "set_counter"),
  ("reset_counter", "reset_counter"),
  ("RESET_COUNTER", "reset_counter"),
  ("reset", "reset_counter"),
  ("RESET", "reset_counter"),
  ("clear_counter", "reset_counter"),
  ("CLEAR_COUNTER", "reset_counter"),
  ("clear", "reset_counter"),
  ("CLEAR", "reset_counter")
]

/-- JavaScript `v || d` for a possibly-absent string property:
an absent or empty value falls through to the default. -/
def jsOr (v : Option String) (d : String) : String :=
  match v with
  | some s => if s == "" then d else s
  | none => d

/-- `normalizeFunction` (lines 312-314):
`FUNCTION_NAME_MAP[name] || name.toLowerCase()`, restricted to
own-property lookup.  This restriction is what the rest of the pipeline
composes with; `normalizeFunctionJS` below refines it with the
prototype chain, which the source's plain object literal inherits. -/
def normalizeFunction (name : String) : String :=
  jsOr (lookupKey name FUNCTION_NAME_MAP) (jsToLower name)

/-- A value a JavaScript property read of the name map can produce:
one of the map's own string values, or a member inherited from
`Object.prototype` (a function, or for `__proto__` the prototype
object), identified by its property name. -/
inductive JsValue where
  | str : String → JsValue
  | inherited : String → JsValue
deriving Repr, DecidableEq

/-- The property names a plain object literal inherits from
`Object.prototype` (including the Annex B accessors present in
browsers, the source's target environment). -/
def objectProtoProps : List String :=
  ["constructor", "hasOwnProperty", "isPrototypeOf", "propertyIsEnumerable",
   "toLocaleString", "toString", "valueOf", "__proto__", "__defineGetter__",
   "__defineSetter__", "__lookupGetter__", "__lookupSetter__"]

/-- JavaScript property read `own[name]` on a plain object literal:
an own property wins, otherwise the prototype chain is consulted. -/
def protoLookup (name : String) (own : List (String × String)) : Option JsValue :=
  match lookupKey name own with
  | some v => some (JsValue.str v)
  | none =>
      if objectProtoProps.contains name then some (JsValue.inherited name)
      else none

/-- `FUNCTION_NAME_MAP[name] || name.toLowerCase()` with full
JavaScript property-lookup semantics: an inherited `Object.prototype`
member is a function or object, hence truthy, and is returned as-is -
the result is then not a name string at all. -/
def normalizeFunctionJS (name : String) : JsValue :=
  match protoLookup name FUNCTION_NAME_MAP with
  | some (JsValue.str v) =>
      if v == "" then JsValue.str (jsToLower name) else JsValue.str v
  | some (JsValue.inherited p) => JsValue.inherited p
  | none => JsValue.str (jsToLower name)

/-- Match of `call:(\w+)\{([^}]*)\}` at the current position. -/
def matchCallAt (s : List Char) : Option (String × String) :=
  if s.take 5 = "call:".data then
    let s1 := s.drop 5
    let w := s1.takeWhile isWordChar
    if w.isEmpty then none
    else
      match s1.drop w.length with
      | c :: s2 =>
          if c = openBrace then
            let a := s2.takeWhile (fun d => d != closeBrace)
            match s2.drop a.length with
            | d :: _ =>
                if d = closeBrace then some (String.mk w, String.mk a) else none
            | [] => none
          else none
      | [] => none
  else none

/-- Leftmost match of the structural pattern, as `output.match(...)`. -/
def findCallAux : Nat → List Char → Option (String × String)
  | 0, _ => none
  | Nat.succ n, s =>
      match matchCallAt s with
      | some r => some r
      | none =>
          match s with
          | [] => none
          | _ :: t => findCallAux n t

/-- First occurrence of `call:<identifier>\x7b<args>\x7d` in the
upstream output, returning the raw name and the args body. -/
def findCall (out : String) : Option (String × String) :=
  findCallAux (out.data.length + 1) out.data

/-- Match of `(\w+):<escape>([^<]*)<escape>` at the current position. -/
def matchEscAt (s : List Char) : Option (String × String × List Char) :=
  let w := s.takeWhile isWordChar
  if w.isEmpty then none
  else
    match s.drop w.length with
    | ':' :: s1 =>
        if s1.take 8 = "<escape>".data then
          let s2 := s1.drop 8
          let v := s2.takeWhile (fun c => c != '<')
          if (s2.drop v.length).take 8 = "<escape>".data then
            some (String.mk w, String.mk v, (s2.drop v.length).drop 8)
          else none
        else none
    | _ => none

/-- All matches of the escaped-argument pattern, folded into a record
with JavaScript assignment semantics. -/
def scanEscapeAux : Nat → List Char → List (String × String) → List (String × String)
  | 0, _, acc => acc
  | Nat.succ n, s, acc =>
      match s with
      | [] => acc
      | _ :: t =>
          match matchEscAt s with
          | some (k, v, rest) => scanEscapeAux n rest (setKey k v acc)
          | none => scanEscapeAux n t acc

/-- Match of `(\w+):([^,}]+)` at the current position. -/
def matchSimpleAt (s : List Char) : Option (String × String × List Char) :=
  let w := s.takeWhile isWordChar
  if w.isEmpty then none
  else
    match s.drop w.length with
    | ':' :: s1 =>
        let v := s1.takeWhile (fun c => c != ',' && c != closeBrace)
        if v.isEmpty then none
        else some (String.mk w, String.mk v, s1.drop v.length)
    | _ => none

/-- All matches of the fallback `key:value` pattern. -/
def scanSimpleAux : Nat → List Char → List (String × String) → List (String × String)
  | 0, _, acc => acc
  | Nat.succ n, s, acc =>
      match s with
      | [] => acc
      | _ :: t =>
          match matchSimpleAt s with
          | some (k, v, rest) => scanSimpleAux n rest (setKey k v acc)
          | none => scanSimpleAux n t acc

/-- Two-pass argument extraction of `parseFunctionCall` (lines 332-344):
the escaped pass wins when it yields at least one pair; only on an
empty (falsy) args body is nothing extracted at all. -/
def extractArgs (a : String) : List (String × String) :=
  if a == "" then []
  else
    let esc := scanEscapeAux (a.data.length + 1) a.data []
    if esc.isEmpty then scanSimpleAux (a.data.length + 1) a.data [] else esc

/-- Existence scanner for a list of alternative patterns, one test per
position, exactly `RegExp.prototype.test`. -/
def scanTestAux (pats : List (List RElem)) : Nat → Option Char → List Char → Bool
  | 0, _, _ => false
  | Nat.succ n, prev, s =>
      pats.any (fun p => (matchElems p prev s).isSome) ||
        match s with
        | [] => false
        | c :: t => scanTestAux pats n (some c) t

/-- Test a pattern alternation against a string. -/
def testPats (pats : List (List RElem)) (s : String) : Bool :=
  scanTestAux pats (s.data.length + 1) none s.data

/-- `\bw\b` (case-sensitive, for the lower-cased evidence tests). -/
def wordPat (w : String) : List RElem := RElem.wb :: rlit w ++ [RElem.wb]

/-- `/\b(decrement|subtract|minus|decrease)\b/.test(inputLower)`. -/
def hasDecrementKeyword (il : String) : Bool :=
  testPats [wordPat "decrement", wordPat "subtract", wordPat "minus",
    wordPat "decrease"] il

/-- `/\b(increment|add|plus|increase)\b/.test(inputLower)`. -/
def hasIncrementKeyword (il : String) : Bool :=
  testPats [wordPat "increment", wordPat "add", wordPat "plus",
    wordPat "increase"] il

/-- `/\b(reset|clear|zero)\b/.test(inputLower)`. -/
def hasResetKeyword (il : String) : Bool :=
  testPats [wordPat "reset", wordPat "clear", wordPat "zero"] il

/-- `\b\d+\b` reachable from here through `.*` (no line terminator may
be consumed by the dot). -/
def seekDigitNoNL : Nat → Option Char → List Char → Bool
  | 0, _, _ => false
  | Nat.succ _, _, [] => false
  | Nat.succ n, prev, c :: t =>
      (matchElems [RElem.wb, RElem.digits, RElem.wb] prev (c :: t)).isSome ||
        (dotOk c && seekDigitNoNL n (some c) t)

/-- Scanner for `\b(set|change)\b.*\b\d+\b`. -/
def setChangeThenDigit : Nat → Option Char → List Char → Bool
  | 0, _, _ => false
  | Nat.succ _, _, [] => false
  | Nat.succ n, prev, c :: t =>
      (match matchElems (wordPat "set") prev (c :: t) with
       | some (rest, _, lastc) => seekDigitNoNL (rest.length + 1) lastc rest
       | none => false) ||
      (match matchElems (wordPat "change") prev (c :: t) with
       | some (rest, _, lastc) => seekDigitNoNL (rest.length + 1) lastc rest
       | none => false) ||
      setChangeThenDigit n (some c) t

/-- `/\b(set|change)\b.*\b\d+\b|\bto\s+\d+\b/.test(inputLower)`. -/
def hasSetPattern (il : String) : Bool :=
  setChangeThenDigit (il.data.length + 1) none il.data ||
    testPats [RElem.wb :: rlit "to" ++ [RElem.sps, RElem.digits, RElem.wb]] il

/-- `/\bto\s+0\b|\b0\b/.test(inputLower)`. -/
def testZeroPattern (il : String) : Bool :=
  testPats [RElem.wb :: rlit "to" ++ [RElem.sps, RElem.lit '0', RElem.wb],
    [RElem.wb, RElem.lit '0', RElem.wb]] il

/-- `isSettingToZero` (lines 369-370). -/
def isSettingToZero (il : String) : Bool :=
  testZeroPattern il && hasResetKeyword il

/-- First match of `/\bto\s+(\d+)\b|\b(\d+)\b/` with the group that
participated (`numMatch[1] || numMatch[2]`). -/
def numMatchAux : Nat → Option Char → List Char → Option (List Char)
  | 0, _, _ => none
  | Nat.succ _, _, [] => none
  | Nat.succ n, prev, c :: t =>
      match matchElems (RElem.wb :: rlit "to" ++
          [RElem.sps, RElem.digits, RElem.wb]) prev (c :: t) with
      | some (_, cap, _) => some cap
      | none =>
          match matchElems [RElem.wb, RElem.digits, RElem.wb] prev (c :: t) with
          | some (_, cap, _) => some cap
          | none => numMatchAux n (some c) t

/-- The number extracted from the input by the set-recovery branch. -/
def numMatch (il : String) : Option String :=
  (numMatchAux (il.data.length + 1) none il.data).map String.mk

/-- The parsed call: canonical name plus string-valued arguments. -/
structure FunctionCall where
  name : String
  args : List (String × String)
deriving Repr, DecidableEq

/-- The numeric-shorthand pass of `parseFunctionCall` (lines 346-356):
a `set_counter` whose trimmed `number` is literally `+1` or `-1`
becomes a relative step. -/
def shorthandFix (name : String) (args : List (String × String)) :
    String × List (String × String) :=
  if name == "set_counter" then
    match lookupKey "number" args with
    | some v =>
        let numStr := String.mk (trimJS v.data)
        if numStr == "+1" then ("increment", eraseKey "number" args)
        else if numStr == "-1" then ("decrement", eraseKey "number" args)
        else (name, args)
    | none => (name, args)
  else (name, args)

/-- The context-aware correction of `parseFunctionCall` (lines 358-423),
an if/else-if chain over the keyword evidence of the lower-cased
normalized input. -/
def contextCorrection (name : String) (args : List (String × String))
    (processedInput : String) : String × List (String × String) :=
  let il := jsToLower processedInput
  if isSettingToZero il && (name == "set_counter" || name == "reset_counter") then
    ("reset_counter", eraseKey "number" args)
  else if hasSetPattern il && name == "reset_counter" && !(isSettingToZero il) then
    ("set_counter",
      match numMatch il with
      | some nstr => setKey "number" nstr args
      | none => args)
  else if hasDecrementKeyword il && !(hasIncrementKeyword il) &&
      !(hasResetKeyword il) && !(hasSetPattern il) then
    if name == "set_counter" || name == "reset_counter" then
      ("decrement", eraseKey "number" args)
    else (name, args)
  else if hasIncrementKeyword il && !(hasDecrementKeyword il) &&
      !(hasResetKeyword il) && !(hasSetPattern il) then
    if name == "set_counter" || name == "reset_counter" then
      ("increment", eraseKey "number" args)
    else (name, args)
  else if hasResetKeyword il && !(hasDecrementKeyword il) &&
      !(hasIncrementKeyword il) && !(hasSetPattern il) then
    if name == "set_counter" || name == "increment" || name == "decrement" then
      ("reset_counter", eraseKey "number" args)
    else (name, args)
  else (name, args)

/-- Both post-parse passes in order: numeric shorthand, then
context-aware correction. -/
def postProcess (name : String) (args : List (String × String))
    (processedInput : String) : String × List (String × String) :=
  let s := shorthandFix name args
  contextCorrection s.1 s.2 processedInput

/-- `parseFunctionCall` of src/functiongemma.ts (lines 321-429). -/
def parseFunctionCall (output : String) (processedInput : String) :
    Option FunctionCall :=
  match findCall output with
  | none => none
  | some (rawName, argsStr) =>
      let r := postProcess (normalizeFunction rawName) (extractArgs argsStr)
        processedInput
      some ⟨r.1, r.2⟩

-- ==========================================================
-- The second, nearly identical copy of the pipeline embedded in
-- src/functiongemma.ts (test document, lines 1353-1815)
-- ==========================================================

/-- The ordered rule table `MULTILINGUAL_TO_ENGLISH` (lines 1353-1664),
transcribed rule for rule in source order. -/
def MULTILINGUAL_TO_ENGLISH : List Rule := [
  -- Special number patterns (must be first)
  mkR (rlit "+1") "increment",
  mkR (rlit "-1") "decrement",
  rword "up by one" "increment",
  rword "down by one" "decrement",
  rword "plus 1" "increment",
  rword "minus 1" "decrement",
  -- Set patterns with numbers
  mkG (rliti "make it " ++ [RElem.digits]) "set to ",
  mkG (rliti "make the counter " ++ [RElem.digits]) "set counter to ",
  -- Compound phrases (before individual words)
  mkR (rliti "go down") "decrement",
  mkR (rliti "go up") "increment",
  mkR (rliti "count up") "increment",
  mkR (rliti "count down") "decrement",
  mkR (rliti "go lower") "decrement",
  mkR (rliti "go higher") "increment",
  mkR (rlit "하나 더") "add one",
  mkR (rlit "하나 빼") "subtract one",
  mkR (rliti "one more") "increment",
  mkR (rliti "one less") "decrement",
  mkR (rliti "tick up") "increment",
  mkR (rliti "tick down") "decrement",
  mkR (rliti "bump it up") "increment",
  mkR (rliti "bump up") "increment",
  mkR (rliti "raise it") "increment",
  mkR (rliti "lower it") "decrement",
  mkR (rliti "lower the counter") "decrement",
  mkR (rliti "raise the counter") "increment",
  mkR (rliti "reduce it") "decrement",
  mkR (rliti "back to zero") "reset",
  mkR (rliti "go to zero") "reset",
  mkR (rliti "start over") "reset",
  mkR (rliti "set to zero") "reset",
  mkR (rliti "make it zero") "reset",
  mkR (rliti "zero out") "reset",
  mkR (rliti "take one away") "decrement",
  mkR (rliti "add one more") "increment",
  mkR (rliti "count one more") "increment",
  mkR (rliti "count one less") "decrement",
  mkR (rliti "make it higher") "increment",
  mkR (rliti "make it lower") "decrement",
  mkR (rliti "add to counter") "increment",
  mkR (rliti "subtract from counter") "decrement",
  mkR (rliti "counter up") "increment",
  mkR (rliti "counter down") "decrement",
  -- Japanese compound phrases (must be before single words)
  mkR (rlit "一つ増や" ++ [RElem.opt 'し', RElem.opt 'て']) "increment",
  mkR (rlit "ひとつ増や" ++ [RElem.opt 'し', RElem.opt 'て']) "increment",
  mkR (rlit "1増や" ++ [RElem.opt 'し', RElem.opt 'て']) "increment",
  mkR (rlit "一つ減ら" ++ [RElem.opt 'し', RElem.opt 'て']) "decrement",
  mkR (rlit "ひとつ減ら" ++ [RElem.opt 'し', RElem.opt 'て']) "decrement",
  mkR (rlit "1減ら" ++ [RElem.opt 'し', RElem.opt 'て']) "decrement",
  mkR (rlit "一つ足" ++ [RElem.opt 'し', RElem.opt 'て']) "increment",
  mkR (rlit "ひとつ足" ++ [RElem.opt 'し', RElem.opt 'て']) "increment",
  mkR (rlit "一つ引" ++ [RElem.opt 'い', RElem.opt 'て']) "decrement",
  mkR (rlit "ひとつ引" ++ [RElem.opt 'い', RElem.opt 'て']) "decrement",
  mkR (rlit "1つ減らせ") "decrement",
  -- Japanese "another one" patterns
  mkR (rlit "もう一つ") "increment",
  mkR (rlit "もうひとつ") "increment",
  mkR (rlit "もう1つ") "increment",
  mkR (rlit "あと一つ") "increment",
  mkR (rlit "あと1つ") "increment",
  -- Japanese katakana loanwords
  mkR (rlit "インクリーズ") "increment",
  mkR (rlit "アドワン") "increment",
  mkR (rlit "アド") "increment",
  mkR (rlit "ディクリーズ") "decrement",
  mkR (rlit "サブトラクト") "decrement",
  mkR (rlit "マイナス1") "decrement",
  mkR (rlit "マイナス一") "decrement",
  -- Japanese compound words (before individual)
  mkR (rlit "値引き") "decrement",
  -- Japanese question/request forms (must be before suffix removal)
  mkR (rlit "増やしてくれる?") "increment",
  mkR (rlit "増やしてもらえる?") "increment",
  mkR (rlit "増やせる?") "increment",
  mkR (rlit "足してくれる?") "increment",
  mkR (rlit "足してもらえる?") "increment",
  mkR (rlit "減らしてくれる?") "decrement",
  mkR (rlit "減らしてもらえる?") "decrement",
  mkR (rlit "減らせる?") "decrement",
  mkR (rlit "引いてくれる?") "decrement",
  mkR (rlit "下げてくれる?") "decrement",
  -- Japanese desire/want forms
  mkR (rlit "増やしたいんだけど") "increment",
  mkR (rlit "増やしたいな") "increment",
  mkR (rlit "増やしたい") "increment",
  mkR (rlit "足したいんだけど") "increment",
  mkR (rlit "足したい") "increment",
  mkR (rlit "上げたいんだけど") "increment",
  mkR (rlit "上げたいな") "increment",
  mkR (rlit "上げたい") "increment",
  mkR (rlit "減らしたいんだけど") "decrement",
  mkR (rlit "減らしたい") "decrement",
  mkR (rlit "引きたい") "decrement",
  mkR (rlit "下げたいんだけど") "decrement",
  mkR (rlit "下げたいな") "decrement",
  mkR (rlit "下げたい") "decrement",
  -- Japanese imperative short forms
  mkR (rlit "増やせ") "increment",
  mkR (rlit "足せ") "increment",
  mkR (rlit "減らせ") "decrement",
  mkR (rlit "引け") "decrement",
  mkR (rlit "引き") "decrement",
  mkR (rlit "ゼロに戻す") "reset",
  mkR (rlit "ゼロに戻して") "reset",
  mkR (rlit "ゼロに戻し") "reset",
  mkR (rlit "0に戻す") "reset",
  mkR (rlit "0に戻して") "reset",
  mkR (rlit "0に戻し") "reset",
  mkR (rlit "元に戻す") "reset",
  mkR (rlit "元に戻して") "reset",
  mkR (rlit "元に戻し") "reset",
  mkR (rlit "初期値に戻す") "reset",
  mkR (rlit "初期値に戻して") "reset",
  mkR (rlit "初期値に") "reset",
  mkR (rlit "ゼロにする") "reset",
  mkR (rlit "ゼロにして") "reset",
  mkR (rlit "0にリセット") "reset",
  -- Japanese increment keywords (all verb conjugations)
  mkR (rlit "増加") "increment",
  mkR (rlit "増やす") "increment",
  mkR (rlit "増やして") "increment",
  mkR (rlit "増やし") "increment",
  mkR (rlit "プラス") "increment",
  mkR (rlit "足す") "increment",
  mkR (rlit "足して") "increment",
  mkR (rlit "足し") "increment",
  mkR (rlit "上げる") "increment",
  mkR (rlit "上げて") "increment",
  mkR (rlit "上げ") "increment",
  mkR (rlit "アップ") "increment",
  mkR (rlit "インクリメント") "increment",
  mkR (rlit "加算") "increment",
  mkR (rlit "加える") "increment",
  mkR (rlit "加えて") "increment",
  -- Japanese decrement keywords (all verb conjugations)
  mkR (rlit "減少") "decrement",
  mkR (rlit "減らす") "decrement",
  mkR (rlit "減らして") "decrement",
  mkR (rlit "減らし") "decrement",
  mkR (rlit "マイナス") "decrement",
  mkR (rlit "引く") "decrement",
  mkR (rlit "引いて") "decrement",
  mkR (rlit "引い") "decrement",
  mkR (rlit "下げる") "decrement",
  mkR (rlit "下げて") "decrement",
  mkR (rlit "下げ") "decrement",
  mkR (rlit "ダウン") "decrement",
  mkR (rlit "デクリメント") "decrement",
  mkR (rlit "減算") "decrement",
  -- Japanese set keywords
  mkR (rlit "設定") "set",
  mkR (rlit "セット") "set",
  mkR (rlit "変更") "change",
  mkR (rlit "変え" ++ [RElem.opt 'て']) "change",
  mkG (RElem.digits :: rlit "に設定") "set to ",
  mkG (RElem.digits :: rlit "にセット") "set to ",
  mkG (RElem.digits :: rlit "にし" ++ [RElem.opt 'て']) "set to ",
  mkG (RElem.digits :: rlit "に変更") "change to ",
  mkG (RElem.digits :: rlit "に変え" ++ [RElem.opt 'て']) "change to ",
  -- Japanese reset keywords
  mkR (rlit "リセット") "reset",
  mkR (rlit "初期化") "reset",
  mkR (rlit "クリア") "reset",
  mkR (rlit "ゼロ") "zero",
  mkR (rlit "初期値") "reset",
  mkR (rlit "初めから") "reset",
  mkR (rlit "最初から") "reset",
  mkR (rlit "最初に戻") "reset",
  mkR (rlit "やり直") "reset",
  mkR (rlit "取り消") "reset",
  mkR (rlit "なかったことに") "reset",
  mkR (rlit "白紙に戻") "reset",
  mkR (rlit "消して") "reset",
  mkR (rlit "消し") "reset",
  mkR (rlit "全部消") "reset",
  mkR (rlit "0にし") "set to 0",
  -- Japanese set with context
  mkG (rlit "を" ++ [RElem.digits] ++ rlit "に" ++ [RElem.eos]) " set to ",
  -- Japanese suffixes (remove polite/casual endings)
  mkR (rlit "をお願いします" ++ [RElem.eos]) "",
  mkR (rlit "ようお願いします" ++ [RElem.eos]) "",
  mkR (rlit "してください" ++ [RElem.eos]) "",
  mkR (rlit "してくれる?" ++ [RElem.eos]) "",
  mkR (rlit "してくれない?" ++ [RElem.eos]) "",
  mkR (rlit "してもらえる?" ++ [RElem.eos]) "",
  mkR (rlit "できる?" ++ [RElem.eos]) "",
  mkR (rlit "してくれ" ++ [RElem.eos]) "",
  mkR (rlit "してほしい" ++ [RElem.eos]) "",
  mkR (rlit "してほしいな" ++ [RElem.eos]) "",
  mkR (rlit "したい" ++ [RElem.eos]) "",
  mkR (rlit "したいな" ++ [RElem.eos]) "",
  mkR (rlit "したいんだけど" ++ [RElem.eos]) "",
  mkR (rlit "しなさい" ++ [RElem.eos]) "",
  mkR (rlit "するんだ" ++ [RElem.eos]) "",
  mkR (rlit "せる?" ++ [RElem.eos]) "",
  mkR (rlit "して" ++ [RElem.eos]) "",
  mkR (rlit "ください" ++ [RElem.eos]) "",
  mkR (rlit "くれ" ++ [RElem.eos]) "",
  mkR (rlit "しろ" ++ [RElem.eos]) "",
  mkR (rlit "せよ" ++ [RElem.eos]) "",
  mkR (rlit "よ" ++ [RElem.eos]) "",
  mkR (rlit "な" ++ [RElem.eos]) "",
  mkR (rlit "する" ++ [RElem.eos]) "",
  mkR (rlit "て" ++ [RElem.eos]) "",
  -- Japanese context words (trailing space for word separation)
  mkR (rlit "カウンタ" ++ [RElem.opt 'ー', RElem.opt 'を']) "counter ",
  mkR (rlit "カウンタ" ++ [RElem.opt 'を']) "counter ",
  mkR (rlit "数字" ++ [RElem.opt 'を']) "number ",
  mkR (rlit "数" ++ [RElem.opt 'を']) "value ",
  mkR (rlit "値" ++ [RElem.opt 'を']) "value ",
  -- Increment keywords (Korean)
  mkR (rlit "증가") "increment",
  mkR (rlit "올려") "increment",
  mkR (rlit "더해") "increment",
  mkR (rlit "플러스") "increment",
  mkR (rlit "추가") "increment",
  mkR (rlit "높여") "increment",
  mkR (rlit "키워") "increment",
  mkR (rlit "늘려") "increment",
  mkR (rlit "인크리먼트") "increment",
  mkR (rlit "업") "increment",
  -- Decrement keywords (Korean)
  mkR (rlit "감소") "decrement",
  mkR (rlit "내려") "decrement",
  mkR (rlit "빼") "decrement",
  mkR (rlit "마이너스") "decrement",
  mkR (rlit "줄여") "decrement",
  mkR (rlit "낮춰") "decrement",
  mkR (rlit "작게") "decrement",
  mkR (rlit "디크리먼트") "decrement",
  mkR (rlit "다운") "decrement",
  -- Set keywords (Korean)
  mkR (rlit "설정") "set",
  mkR (rlit "세팅") "set",
  mkR (rlit "변경") "change",
  mkR (rlit "바꿔") "change",
  mkG (RElem.digits :: rlit "으로") "to ",
  mkG (RElem.digits :: rlit "로") "to ",
  -- Reset keywords (Korean)
  mkR (rlit "초기화") "reset",
  mkR (rlit "리셋") "reset",
  mkR (rlit "클리어") "clear",
  mkR (rlit "제로") "zero",
  mkR (rlit "처음으로") "reset",
  mkR (rlit "원래대로") "reset",
  mkR (rlit "기본값") "reset",
  mkR (rlit "0으로") "to 0",
  -- English keywords that need normalization
  rword "increase" "increment",
  rword "add" "increment",
  rword "plus" "increment",
  rword "decrease" "decrement",
  rword "subtract" "decrement",
  rword "minus" "decrement",
  rword "raise" "increment",
  rword "reduce" "decrement",
  rword "clear" "reset",
  rword "default" "reset",
  rword "down" "decrement",
  rword "up" "increment",
  -- Common suffixes (Korean)
  mkR (rlit "해줘" ++ [RElem.eos]) "",
  mkR (rlit "시켜줘" ++ [RElem.eos]) "",
  mkR (rlit "시켜" ++ [RElem.eos]) "",
  mkR (rlit "해" ++ [RElem.eos]) "",
  mkR (rlit "줘" ++ [RElem.eos]) "",
  -- Context words (trailing space for word separation)
  mkR (rlit "카운터" ++ [RElem.opt '를']) "counter ",
  mkR (rlit "숫자" ++ [RElem.opt '를']) "number ",
  mkR (rlit "값" ++ [RElem.opt '을']) "value ",
  mkR (rlit "하나") "one"
]

/-- `preprocessMultilingual` of the test copy (lines 1666-1674). -/
def preprocessMultilingual (input : String) : String :=
  String.mk (cleanSpaces (runRules MULTILINGUAL_TO_ENGLISH input.data))

/-- The numeric-shorthand pass of the test copy's `parseFunctionCall`
(lines 1760-1771).  Identical to copy 1; the source adds the comment
that a number of exactly 0 stays as set_counter. -/
def shorthandFix2 (name : String) (args : List (String × String)) :
    String × List (String × String) :=
  if name == "set_counter" then
    match lookupKey "number" args with
    | some v =>
        let numStr := String.mk (trimJS v.data)
        if numStr == "+1" then ("increment", eraseKey "number" args)
        else if numStr == "-1" then ("decrement", eraseKey "number" args)
        else (name, args)
    | none => (name, args)
  else (name, args)

/-- The context-aware correction of the test copy (lines 1774-1815),
textually identical to copy 1's chain. -/
def contextCorrection2 (name : String) (args : List (String × String))
    (processedInput : String) : String × List (String × String) :=
  let il := jsToLower processedInput
  if isSettingToZero il && (name == "set_counter" || name == "reset_counter") then
    ("reset_counter", eraseKey "number" args)
  else if hasSetPattern il && name == "reset_counter" && !(isSettingToZero il) then
    ("set_counter",
      match numMatch il with
      | some nstr => setKey "number" nstr args
      | none => args)
  else if hasDecrementKeyword il && !(hasIncrementKeyword il) &&
      !(hasResetKeyword il) && !(hasSetPattern il) then
    if name == "set_counter" || name == "reset_counter" then
      ("decrement", eraseKey "number" args)
    else (name, args)
  else if hasIncrementKeyword il && !(hasDecrementKeyword il) &&
      !(hasResetKeyword il) && !(hasSetPattern il) then
    if name == "set_counter" || name == "reset_counter" then
      ("increment", eraseKey "number" args)
    else (name, args)
  else if hasResetKeyword il && !(hasDecrementKeyword il) &&
      !(hasIncrementKeyword il) && !(hasSetPattern il) then
    if name == "set_counter" || name == "increment" || name == "decrement" then
      ("reset_counter", eraseKey "number" args)
    else (name, args)
  else (name, args)

/-- The test copy's post-parse passes.  Its `processedInput` parameter
is optional and the correction runs only when the string is truthy
(present and non-empty): `if (processedInput) { ... }`. -/
def postProcess2 (name : String) (args : List (String × String))
    (processedInput : Option String) : String × List (String × String) :=
  let s := shorthandFix2 name args
  match processedInput with
  | some inp => if inp == "" then s else contextCorrection2 s.1 s.2 inp
  | none => s

/-- `parseFunctionCall` of the test copy (lines 1744-1821). -/
def parseFunctionCall2 (output : String) (processedInput : Option String) :
    Option FunctionCall :=
  match findCall output with
  | none => none
  | some (rawName, argsStr) =>
      let r := postProcess2 (normalizeFunction rawName) (extractArgs argsStr)
        processedInput
      some ⟨r.1, r.2⟩

-- ==========================================================
-- Definitions used only to compare against the specification text
-- ==========================================================

/-- First capture of a single pattern anywhere in the text. -/
def firstPatCapAux : Nat → List RElem → Option Char → List Char → Option (List Char)
  | 0, _, _, _ => none
  | Nat.succ _, _, _, [] => none
  | Nat.succ n, p, prev, c :: t =>
      match matchElems p prev (c :: t) with
      | some (_, cap, _) => some cap
      | none => firstPatCapAux n p (some c) t

/-- Modelled from the spec (section 4.4 step 4): the number-extraction
policy the specification describes for the set-recovery branch -
"extract a number from the input by matching `to (\d+)` first, else any
bare digit run".  This tries the `to`-anchored pattern anywhere in the
input before falling back to a bare digit run, unlike the source, which
takes the leftmost match of the combined alternation. -/
def specNumberExtract (il : String) : Option String :=
  match firstPatCapAux (il.data.length + 1)
      (RElem.wb :: rlit "to" ++ [RElem.sps, RElem.digits, RElem.wb]) none il.data with
  | some cap => some (String.mk cap)
  | none =>
      (firstPatCapAux (il.data.length + 1)
        [RElem.wb, RElem.digits, RElem.wb] none il.data).map String.mk

-- ==========================================================
-- Helper lemmas (shared)
-- ==========================================================

theorem lookupKey_eraseKey_self (k : String) (l : List (String × String)) :
    lookupKey k (eraseKey k l) = none := by
  induction l with
  | nil => rfl
  | cons p t ih =>
      rcases p with ⟨k1, v1⟩
      by_cases h : k1 = k
      · simpa [eraseKey, List.filter_cons, h] using ih
      · simpa [eraseKey, List.filter_cons, h, lookupKey] using ih

theorem lookupKey_eraseKey_ne {k k1 : String} (h : k ≠ k1)
    (l : List (String × String)) :
    lookupKey k (eraseKey k1 l) = lookupKey k l := by
  induction l with
  | nil => rfl
  | cons p t ih =>
      rcases p with ⟨k2, v2⟩
      by_cases h2 : k2 = k1
      · subst h2
        have hne : k2 ≠ k := fun hh => h (hh ▸ rfl)
        simpa [eraseKey, List.filter_cons, lookupKey, hne] using ih
      · by_cases h3 : k2 = k
        · simp [eraseKey, List.filter_cons, lookupKey, h2, h3, h]
        · simpa [eraseKey, List.filter_cons, lookupKey, h2, h3] using ih

theorem lookupKey_setKey_ne {k k1 : String} (h : k ≠ k1) (v : String)
    (l : List (String × String)) :
    lookupKey k (setKey k1 v l) = lookupKey k l := by
  induction l with
  | nil => simp [setKey, lookupKey, Ne.symm h]
  | cons p t ih =>
      rcases p with ⟨k2, v2⟩
      by_cases h2 : k2 = k1
      · subst h2
        have hne : k2 ≠ k := fun hh => h (hh ▸ rfl)
        simp [setKey, lookupKey, hne, Ne.symm h]
      · by_cases h3 : k2 = k
        · simp [setKey, lookupKey, h2, h3, h]
        · simpa [setKey, lookupKey, h2, h3] using ih

theorem contextCorrection2_agrees (n : String) (a : List (String × String))
    (i : String) : contextCorrection2 n a i = contextCorrection n a i := rfl

theorem shorthandFix2_agrees (n : String) (a : List (String × String)) :
    shorthandFix2 n a = shorthandFix n a := rfl

theorem contextCorrection_empty (n : String) (a : List (String × String)) :
    contextCorrection n a "" = (n, a) := rfl

theorem postProcess_agrees (n : String) (a : List (String × String)) (i : String) :
    postProcess n a i = postProcess2 n a (some i) := by
  unfold postProcess postProcess2
  by_cases h : i = ""
  · subst h
    simp [contextCorrection_empty, shorthandFix2_agrees]
  · simp [h, beq_iff_eq, contextCorrection2_agrees, shorthandFix2_agrees]

theorem shorthandFix_frame (name : String) (args : List (String × String))
    (k : String) (hk : k ≠ "number") :
    lookupKey k (shorthandFix name args).2 = lookupKey k args := by
  simp only [shorthandFix]
  repeat' split
  all_goals first | rfl | exact lookupKey_eraseKey_ne hk args

theorem contextCorrection_frame (name : String) (args : List (String × String))
    (input k : String) (hk : k ≠ "number") :
    lookupKey k (contextCorrection name args input).2 = lookupKey k args := by
  simp only [contextCorrection]
  repeat' split
  all_goals
    first
      | rfl
      | exact lookupKey_eraseKey_ne hk args
      | exact lookupKey_setKey_ne hk _ args

-- ==========================================================
-- Claim theorems
-- ==========================================================

/-- C1: when exactly one of the three keyword-evidence booleans is
true, the set pattern is absent, and the zero-reset guard (and hence
also the set-recovery guard) did not fire, the disambiguator overrides
the parsed name to the operation matching the single true boolean and
drops the number argument exactly when the parsed name was inconsistent
with it (set_counter or reset_counter for the increment/decrement
cases; set_counter, increment or decrement for the reset case); and
when two or more keyword booleans are simultaneously true (under the
same side conditions) the parsed call is returned unchanged. -/
theorem claim_C1 :
    (∀ (name : String) (args : List (String × String)) (input : String),
      hasDecrementKeyword (jsToLower input) = true →
      hasIncrementKeyword (jsToLower input) = false →
      hasResetKeyword (jsToLower input) = false →
      hasSetPattern (jsToLower input) = false →
      (isSettingToZero (jsToLower input) &&
        (name == "set_counter" || name == "reset_counter")) = false →
      contextCorrection name args input =
        if name == "set_counter" || name == "reset_counter" then
          ("decrement", eraseKey "number" args)
        else (name, args)) ∧
    (∀ (name : String) (args : List (String × String)) (input : String),
      hasIncrementKeyword (jsToLower input) = true →
      hasDecrementKeyword (jsToLower input) = false →
      hasResetKeyword (jsToLower input) = false →
      hasSetPattern (jsToLower input) = false →
      (isSettingToZero (jsToLower input) &&
        (name == "set_counter" || name == "reset_counter")) = false →
      contextCorrection name args input =
        if name == "set_counter" || name == "reset_counter" then
          ("increment", eraseKey "number" args)
        else (name, args)) ∧
    (∀ (name : String) (args : List (String × String)) (input : String),
      hasResetKeyword (jsToLower input) = true →
      hasDecrementKeyword (jsToLower input) = false →
      hasIncrementKeyword (jsToLower input) = false →
      hasSetPattern (jsToLower input) = false →
      (isSettingToZero (jsToLower input) &&
        (name == "set_counter" || name == "reset_counter")) = false →
      contextCorrection name args input =
        if name == "set_counter" || name == "increment" || name == "decrement" then
          ("reset_counter", eraseKey "number" args)
        else (name, args)) ∧
    (∀ (name : String) (args : List (String × String)) (input : String),
      ((hasDecrementKeyword (jsToLower input) && hasIncrementKeyword (jsToLower input)) ||
       (hasDecrementKeyword (jsToLower input) && hasResetKeyword (jsToLower input)) ||
       (hasIncrementKeyword (jsToLower input) && hasResetKeyword (jsToLower input))) = true →
      hasSetPattern (jsToLower input) = false →
      (isSettingToZero (jsToLower input) &&
        (name == "set_counter" || name == "reset_counter")) = false →
      contextCorrection name args input = (name, args)) := by
  refine ⟨?_, ?_, ?_, ?_⟩
  · intro name args input hd hi hr hs hz
    simp [contextCorrection, hd, hi, hr, hs, hz]
  · intro name args input hi hd hr hs hz
    simp [contextCorrection, hd, hi, hr, hs, hz]
  · intro name args input hr hd hi hs hz
    simp [contextCorrection, hd, hi, hr, hs, hz]
  · intro name args input h2 hs hz
    simp only [Bool.or_eq_true, Bool.and_eq_true] at h2
    rcases h2 with (⟨ha, hb⟩ | ⟨ha, hb⟩) | ⟨ha, hb⟩ <;>
      simp [contextCorrection, ha, hb, hs, hz]

/-- C1 witness: concrete instances of the four parts. -/
theorem claim_C1_wit :
    contextCorrection "set_counter" [("number", "5")] "decrement" =
      ("decrement", []) ∧
    contextCorrection "reset_counter" [] "increment" = ("increment", []) ∧
    contextCorrection "decrement" [("number", "5")] "reset" =
      ("reset_counter", []) ∧
    contextCorrection "reset_counter" [("number", "5")] "increment decrement" =
      ("reset_counter", [("number", "5")]) := by
  refine ⟨?_, ?_, ?_, ?_⟩
  · have h := claim_C1.1 "set_counter" [("number", "5")] "decrement"
      (by decide) (by decide) (by decide) (by decide) (by decide)
    simpa using h
  · have h := claim_C1.2.1 "reset_counter" [] "increment"
      (by decide) (by decide) (by decide) (by decide) (by decide)
    simpa using h
  · have h := claim_C1.2.2.1 "decrement" [("number", "5")] "reset"
      (by decide) (by decide) (by decide) (by decide) (by decide)
    simpa using h
  · have h := claim_C1.2.2.2 "reset_counter" [("number", "5")] "increment decrement"
      (by decide) (by decide) (by decide)
    simpa using h

/-- C2: when the lower-cased normalized input matches `to 0` or a
standalone `0` and contains a reset-family keyword, any parsed
set_counter or reset_counter call is forced to reset_counter with the
number argument removed, regardless of every other evidence boolean. -/
theorem claim_C2 :
    ∀ (name : String) (args : List (String × String)) (input : String),
      testZeroPattern (jsToLower input) = true →
      hasResetKeyword (jsToLower input) = true →
      (name = "set_counter" ∨ name = "reset_counter") →
      contextCorrection name args input = ("reset_counter", eraseKey "number" args) := by
  intro name args input hz hr hn
  rcases hn with h | h <;> subst h <;>
    simp [contextCorrection, isSettingToZero, hz, hr]

/-- C2 witness: a parsed set_counter call on input with reset evidence
and an explicit zero. -/
theorem claim_C2_wit :
    contextCorrection "set_counter" [("number", "0")] "reset to 0" =
      ("reset_counter", []) := by
  have h := claim_C2 "set_counter" [("number", "0")] "reset to 0"
    (by decide) (by decide) (Or.inl rfl)
  simpa using h

/-- C3 counterexample: the source extracts the number with the single
alternation `\bto\s+(\d+)\b|\b(\d+)\b`, whose leftmost match wins, so
on input `40 set to 50` a parsed reset_counter is recovered to
set_counter with number `40`, while the claimed policy (match
`to (\d+)` first, else a bare digit run) yields `50`. -/
theorem claim_C3_cex :
    contextCorrection "reset_counter" [] "40 set to 50" =
      ("set_counter", [("number", "40")]) ∧
    specNumberExtract "40 set to 50" = some "50" ∧
    ("40" : String) ≠ "50" := by
  refine ⟨rfl, rfl, by decide⟩

/-- C3 (amended): with an explicit set pattern, a parsed reset_counter
not in the zero-reset case is forced to set_counter, with the number
argument set from the leftmost match of `\bto\s+(\d+)\b|\b(\d+)\b`
(the `to`-anchored alternative is preferred only at the same start
position); in particular input `set counter to 50` with upstream output
`call:reset_counter` and empty braces resolves to set_counter with
number `50`. -/
theorem claim_C3 :
    (∀ (args : List (String × String)) (input : String),
      hasSetPattern (jsToLower input) = true →
      isSettingToZero (jsToLower input) = false →
      contextCorrection "reset_counter" args input =
        ("set_counter",
          match numMatch (jsToLower input) with
          | some nstr => setKey "number" nstr args
          | none => args)) ∧
    parseFunctionCall "call:reset_counter\x7b\x7d" (preprocessInput "set counter to 50") =
      some ⟨"set_counter", [("number", "50")]⟩ := by
  constructor
  · intro args input hs hz
    simp [contextCorrection, hs, hz]
  · rfl

/-- C3 witness: the set-recovery branch applied at a concrete input. -/
theorem claim_C3_wit :
    contextCorrection "reset_counter" [] "set counter to 50" =
      ("set_counter", [("number", "50")]) := by
  have h := claim_C3.1 [] "set counter to 50" (by decide) (by decide)
  simpa using h

/-- C4 counterexample: the input with the digit zero and the katakana
reset keyword normalizes to `reset` - the compound rule consumes the
digit, so the normalized text does not contain `0` as the claim
asserts. -/
theorem claim_C4_cex :
    preprocessMultilingual "0にリセット" = "reset" ∧
    (preprocessMultilingual "0にリセット").data.contains '0' = false := by
  exact ⟨rfl, by rfl⟩

/-- C4 (amended): the input normalizes to `reset` (containing a
reset-family keyword but not the digit 0); on that normalized input a
parsed set_counter call resolves to reset_counter with the number
argument removed, and a parsed reset_counter call keeps its name with
its arguments unchanged. -/
theorem claim_C4 :
    preprocessMultilingual "0にリセット" = "reset" ∧
    hasResetKeyword (jsToLower (preprocessMultilingual "0にリセット")) = true ∧
    (∀ args : List (String × String),
      (postProcess2 "set_counter" args (some (preprocessMultilingual "0にリセット"))).1 =
        "reset_counter" ∧
      lookupKey "number"
        (postProcess2 "set_counter" args (some (preprocessMultilingual "0にリセット"))).2 =
        none) ∧
    (∀ args : List (String × String),
      postProcess2 "reset_counter" args (some (preprocessMultilingual "0にリセット")) =
        ("reset_counter", args)) := by
  have hpre : preprocessMultilingual "0にリセット" = "reset" := rfl
  have hset : ∀ a : List (String × String),
      contextCorrection2 "set_counter" a "reset" =
        ("reset_counter", eraseKey "number" a) := fun _ => rfl
  have hincr : ∀ a : List (String × String),
      contextCorrection2 "increment" a "reset" =
        ("reset_counter", eraseKey "number" a) := fun _ => rfl
  have hdecr : ∀ a : List (String × String),
      contextCorrection2 "decrement" a "reset" =
        ("reset_counter", eraseKey "number" a) := fun _ => rfl
  refine ⟨hpre, by rfl, ?_, ?_⟩
  · intro args
    rw [hpre]
    unfold postProcess2 shorthandFix2
    cases hl : lookupKey "number" args with
    | none =>
        simp only [hl]
        exact ⟨by simp [hset], by simp [hset, lookupKey_eraseKey_self]⟩
    | some v =>
        simp only [hl]
        by_cases h1 : String.mk (trimJS v.data) = "+1"
        · simp [h1, hincr, lookupKey_eraseKey_self]
        · by_cases h2 : String.mk (trimJS v.data) = "-1"
          · simp [h1, h2, hdecr, lookupKey_eraseKey_self]
          · simp [h1, h2, hset, lookupKey_eraseKey_self]
  · intro args
    rw [hpre]
    rfl

/-- C5 counterexample: the two copies of the post-processing do not
diverge on a set_counter argument of exactly `0`: there is no parsed
call with number `0` and no normalized input on which one copy yields
reset_counter and the other set_counter. -/
theorem claim_C5_cex :
    ¬ ∃ (args : List (String × String)) (input : String),
      lookupKey "number" args = some "0" ∧
      (((postProcess "set_counter" args input).1 = "reset_counter" ∧
        (postProcess2 "set_counter" args (some input)).1 = "set_counter") ∨
       ((postProcess "set_counter" args input).1 = "set_counter" ∧
        (postProcess2 "set_counter" args (some input)).1 = "reset_counter")) := by
  rintro ⟨args, input, -, h | h⟩ <;>
    rw [postProcess_agrees] at h <;>
    exact absurd (h.1.symm.trans h.2) (by decide)

/-- C5 (amended): the two copies of the pipeline in the source agree on
every parsed call and normalized input, so there is no divergence to
resolve; in particular both leave a set_counter with number exactly `0`
unchanged when no reset-keyword evidence forces the zero-reset
override. -/
theorem claim_C5 :
    (∀ (name : String) (args : List (String × String)) (input : String),
      postProcess name args input = postProcess2 name args (some input)) ∧
    postProcess "set_counter" [("number", "0")] "set to 0" =
      ("set_counter", [("number", "0")]) ∧
    postProcess2 "set_counter" [("number", "0")] (some "set to 0") =
      ("set_counter", [("number", "0")]) :=
  ⟨postProcess_agrees, rfl, rfl⟩

/-- C6 counterexample: the normalizer is not idempotent - on input
`1로로` the first pass produces `to 1로`, on which the rule
`(\d+)로 - to $1` fires again, producing `to to 1`. -/
theorem claim_C6_cex :
    preprocessInput "1로로" = "to 1로" ∧
    preprocessInput (preprocessInput "1로로") = "to to 1" ∧
    preprocessInput (preprocessInput "1로로") ≠ preprocessInput "1로로" := by
  have h1 : preprocessInput "1로로" = "to 1로" := rfl
  have h2 : preprocessInput "to 1로" = "to to 1" := rfl
  refine ⟨h1, ?_, ?_⟩
  · rw [h1, h2]
  · rw [h1, h2]
    decide

/-- C6 (amended): the normalizer is idempotent on inputs whose normal
forms are fully folded canonical keyword text (representative inputs
per language and operation), though not on every string. -/
theorem claim_C6 :
    preprocessInput (preprocessInput "increment") = preprocessInput "increment" ∧
    preprocessInput (preprocessInput "decrement") = preprocessInput "decrement" ∧
    preprocessInput (preprocessInput "reset") = preprocessInput "reset" ∧
    preprocessInput (preprocessInput "set to 50") = preprocessInput "set to 50" ∧
    preprocessInput (preprocessInput "카운터를 증가시켜줘") =
      preprocessInput "카운터를 증가시켜줘" := by
  have h1 : preprocessInput "increment" = "increment" := rfl
  have h2 : preprocessInput "decrement" = "decrement" := rfl
  have h3 : preprocessInput "reset" = "reset" := rfl
  have h4 : preprocessInput "set to 50" = "set to 50" := rfl
  have h5 : preprocessInput "카운터를 증가시켜줘" = "counter increment" := rfl
  have h6 : preprocessInput "counter increment" = "counter increment" := rfl
  exact ⟨by rw [h1]; exact h1, by rw [h2]; exact h2, by rw [h3]; exact h3,
    by rw [h4]; exact h4, by rw [h5, h6]⟩

/-- C7: the normalizer, output parser (with name mapping and
disambiguation) and name mapper are total functions of their string
inputs - every input, including the empty string, a string with an
unbalanced brace and a string with no letters of any supported
language, yields a value. -/
theorem claim_C7 :
    (∀ s : String, ∃ t, preprocessInput s = t) ∧
    (∀ n : String, ∃ m, normalizeFunction n = m) ∧
    (∀ out inp : String,
      parseFunctionCall out inp = none ∨ ∃ c, parseFunctionCall out inp = some c) ∧
    preprocessInput "" = "" ∧
    normalizeFunction "" = "" ∧
    parseFunctionCall "" "" = none ∧
    parseFunctionCall "call:set_counter\x7bnumber:3" "" = none ∧
    preprocessInput "?!@#" = "?!@#" := by
  refine ⟨fun s => ⟨_, rfl⟩, fun n => ⟨_, rfl⟩, ?_, rfl, rfl, rfl, rfl, rfl⟩
  intro out inp
  cases h : parseFunctionCall out inp with
  | none => exact Or.inl rfl
  | some c => exact Or.inr ⟨c, rfl⟩

/-- C8: an upstream output in which the structural pattern
`call:<identifier>` with a braced args body never occurs makes the
parser return none rather than fail; in particular the plain sentence
`no function call here` parses to none. -/
theorem claim_C8 :
    (∀ out inp : String, findCall out = none → parseFunctionCall out inp = none) ∧
    findCall "no function call here" = none := by
  refine ⟨?_, rfl⟩
  intro out inp h
  unfold parseFunctionCall
  rw [h]

/-- C8 witness: the concrete no-match sentence. -/
theorem claim_C8_wit :
    parseFunctionCall "no function call here" "" = none :=
  claim_C8.1 "no function call here" "" (by rfl)

/-- C9 counterexample: the raw name `toString` is absent from the
mapping table, is producible by the upstream parser (`\w+` matches it),
and the JavaScript lookup on the plain object literal finds the
inherited, truthy `Object.prototype.toString` - so the program returns
that function rather than the pure lower-casing `tostring` the claim
asserts. -/
theorem claim_C9_cex :
    lookupKey "toString" FUNCTION_NAME_MAP = none ∧
    normalizeFunctionJS "toString" = JsValue.inherited "toString" ∧
    JsValue.inherited "toString" ≠ JsValue.str (jsToLower "toString") := by
  exact ⟨rfl, rfl, by decide⟩

/-- C9 (amended): every raw name of the closed increment synonym set
maps to `increment` (with representatives of the analogous sets for
decrement, set_counter and reset_counter); every raw name absent from
the mapping table that is not one of the twelve inherited
`Object.prototype` member names is mapped to its pure lower-casing; and
for each of those twelve inherited names the lookup returns the
inherited member itself (truthy, so the lower-casing fallback never
runs) - a function or object, not a name string. -/
theorem claim_C9 :
    (normalizeFunctionJS "increment" = JsValue.str "increment" ∧
     normalizeFunctionJS "INCREMENT" = JsValue.str "increment" ∧
     normalizeFunctionJS "Increment" = JsValue.str "increment" ∧
     normalizeFunctionJS "add" = JsValue.str "increment" ∧
     normalizeFunctionJS "ADD" = JsValue.str "increment" ∧
     normalizeFunctionJS "plus" = JsValue.str "increment" ∧
     normalizeFunctionJS "increase" = JsValue.str "increment" ∧
     normalizeFunctionJS "decrement" = JsValue.str "decrement" ∧
     normalizeFunctionJS "DECREMENT" = JsValue.str "decrement" ∧
     normalizeFunctionJS "Decrease" = JsValue.str "decrement" ∧
     normalizeFunctionJS "subtract" = JsValue.str "decrement" ∧
     normalizeFunctionJS "minus" = JsValue.str "decrement" ∧
     normalizeFunctionJS "set_counter" = JsValue.str "set_counter" ∧
     normalizeFunctionJS "SET" = JsValue.str "set_counter" ∧
     normalizeFunctionJS "print_counter" = JsValue.str "set_counter" ∧
     normalizeFunctionJS "reset_counter" = JsValue.str "reset_counter" ∧
     normalizeFunctionJS "CLEAR" = JsValue.str "reset_counter" ∧
     normalizeFunctionJS "clear_counter" = JsValue.str "reset_counter") ∧
    (∀ raw : String, lookupKey raw FUNCTION_NAME_MAP = none →
      objectProtoProps.contains raw = false →
      normalizeFunctionJS raw = JsValue.str (jsToLower raw)) ∧
    (∀ raw : String, objectProtoProps.contains raw = true →
      normalizeFunctionJS raw = JsValue.inherited raw) := by
  refine ⟨⟨rfl, rfl, rfl, rfl, rfl, rfl, rfl, rfl, rfl, rfl, rfl, rfl, rfl,
    rfl, rfl, rfl, rfl, rfl⟩, ?_, ?_⟩
  · intro raw h hp
    unfold normalizeFunctionJS protoLookup
    rw [h, hp]
    rfl
  · intro raw hp
    have hm : raw ∈ objectProtoProps := by simpa using hp
    simp only [objectProtoProps, List.mem_cons, List.not_mem_nil, or_false] at hm
    rcases hm with rfl | rfl | rfl | rfl | rfl | rfl | rfl | rfl | rfl | rfl |
      rfl | rfl <;> rfl

/-- C9 witness: an unmapped ordinary raw name falls back to
lower-casing, and an inherited property name does not. -/
theorem claim_C9_wit :
    normalizeFunctionJS "FooBar9" = JsValue.str "foobar9" ∧
    normalizeFunctionJS "valueOf" = JsValue.inherited "valueOf" :=
  ⟨claim_C9.2.1 "FooBar9" (by rfl) (by rfl), claim_C9.2.2 "valueOf" (by rfl)⟩

/-- C10: the post-parse passes touch only the `number` argument - for
every parsed call and normalized input, the lookup of any key other
than `number` in the final argument map equals its lookup in the map
produced by the raw argument extraction. -/
theorem claim_C10 :
    ∀ (name : String) (args : List (String × String)) (input k : String),
      k ≠ "number" →
      lookupKey k (postProcess name args input).2 = lookupKey k args := by
  intro name args input k hk
  unfold postProcess
  exact (contextCorrection_frame _ _ input k hk).trans (shorthandFix_frame name args k hk)

/-- C10 witness: a non-number key survives an override that deletes the
number argument. -/
theorem claim_C10_wit :
    lookupKey "other"
      (postProcess "reset_counter" [("other", "x"), ("number", "5")] "decrement").2 =
      some "x" := by
  have h := claim_C10 "reset_counter" [("other", "x"), ("number", "5")] "decrement"
    "other" (by decide)
  exact h.trans rfl
